import Mathlib

/-!
Shallow embedding of the viabilidade-sobral-mvp spatial/arithmetic core.

Numbers are modelled with `ℚ` (the Python code computes with floats; every
concrete value used below is exactly representable and far from any binary
rounding boundary, so the rational model agrees with the float execution at
those points).  Python's `round(x, 1)` is modelled as exact decimal rounding
to one decimal with ties to even, which is the documented behaviour of
`round` and agrees with the float execution at every input considered here.
Fallible Python code (expressions that can raise) is modelled with `Except`.
-/

/-- Model of Python `round(x, 1)`: round to one decimal, ties to even.
Used by `round_rule_annex_iv` (src/core/app_main.py line 377). -/
def pyRound1 (x : ℚ) : ℚ :=
  let y := x * 10
  let f := ⌊y⌋
  let r := y - (f : ℚ)
  if r < 1 / 2 then (f : ℚ) / 10
  else if 1 / 2 < r then ((f : ℚ) + 1) / 10
  else if f % 2 = 0 then (f : ℚ) / 10 else ((f : ℚ) + 1) / 10

/-- src/core/app_main.py lines 370-382 (`round_rule_annex_iv`):
if x <= 0 return 0; v10 = round(x, 1); i = floor(v10); frac = v10 - i;
if frac >= 0.5 return i + 1 else return max(i, 0). -/
def round_rule_annex_iv (x : ℚ) : ℤ :=
  if x ≤ 0 then 0
  else
    let v10 := pyRound1 x
    let i := ⌊v10⌋
    let frac := v10 - (i : ℚ)
    if 1 / 2 ≤ frac then i + 1 else max i 0

/-- Result record of `envelope_area` (src/app.py lines 190-267 and the
identical copy in src/core/app_main.py lines 244-298). -/
structure EnvOut where
  largura_util : ℚ
  prof_util : ℚ
  area_miolo : ℚ
  esquina_modelo : String
deriving DecidableEq

/-- src/app.py lines 190-267 (`envelope_area`).  Three regimes: mid-block
(`meio_quadra`), corner with two frontages (`esquina_2_frentes`), corner
without the two-frontage flag (`esquina_sem_2_frentes`, same formula as
mid-block).  `attach_one_side` zeroes only the internal side setback. -/
def envelope_area (testada profundidade rec_fr rec_fun rec_lat : ℚ)
    (esquina corner_two_fronts attach_one_side : Bool) : EnvOut :=
  if !esquina then
    let lat_internal := if attach_one_side then 0 else rec_lat
    let lat_other := rec_lat
    let largura_util := max (testada - (lat_internal + lat_other)) 0
    let prof_util := max (profundidade - rec_fr - rec_fun) 0
    ⟨largura_util, prof_util, largura_util * prof_util, "meio_quadra"⟩
  else if corner_two_fronts then
    let lat_internal := if attach_one_side then 0 else rec_lat
    let largura_util := max (testada - (lat_internal + rec_fr)) 0
    let prof_util := max (profundidade - rec_fr - rec_fun) 0
    ⟨largura_util, prof_util, largura_util * prof_util, "esquina_2_frentes"⟩
  else
    let lat_internal := if attach_one_side then 0 else rec_lat
    let lat_other := rec_lat
    let largura_util := max (testada - (lat_internal + lat_other)) 0
    let prof_util := max (profundidade - rec_fr - rec_fun) 0
    ⟨largura_util, prof_util, largura_util * prof_util, "esquina_sem_2_frentes"⟩

/-- src/app.py line 574: `area_max_ocupacao_to = to_max * area_lote` when
`to_max` is present, else `None`. -/
def area_max_ocupacao_to (to_max : Option ℚ) (area_lote : ℚ) : Option ℚ :=
  to_max.map (fun t => t * area_lote)

/-- src/app.py lines 621-626 (inside `compute_urbanism`): the real maximum
ground-floor occupation is the minimum of the TO-limited area and the
setback envelope area when both are present, else whichever is present. -/
def area_max_ocupacao_real (area_to area_miolo : Option ℚ) : Option ℚ :=
  match area_to, area_miolo with
  | some a, some m => some (min a m)
  | some a, none => some a
  | none, m => m

/-- Claim C1: the code evaluated at the spec's three test inputs.  The spec
and the function's own docstring require 2, 3, 3 for 2.49, 2.50, 2.51, but
the implementation first rounds 2.49 to one decimal (2.5) and then sees a
tenths digit of 5, so it returns 3, 3, 3: the code diverges from its
documentation at 2.49. -/
theorem round_rule_annex_iv_claim_inputs :
    round_rule_annex_iv (249 / 100) = 3 ∧
    round_rule_annex_iv (250 / 100) = 3 ∧
    round_rule_annex_iv (251 / 100) = 3 := by
  refine ⟨?_, ?_, ?_⟩ <;> norm_num [round_rule_annex_iv, pyRound1]

/-- The helper `pyRound1` maps non-negative inputs to non-negative outputs. -/
theorem pyRound1_nonneg (x : ℚ) (hx : 0 ≤ x) : 0 ≤ pyRound1 x := by
  have hy : (0 : ℚ) ≤ x * 10 := by positivity
  have hf : (0 : ℤ) ≤ ⌊x * 10⌋ := Int.floor_nonneg.mpr hy
  have hf' : (0 : ℚ) ≤ ((⌊x * 10⌋ : ℤ) : ℚ) := by exact_mod_cast hf
  show 0 ≤
    (if x * 10 - ((⌊x * 10⌋ : ℤ) : ℚ) < 1 / 2 then ((⌊x * 10⌋ : ℤ) : ℚ) / 10
     else if 1 / 2 < x * 10 - ((⌊x * 10⌋ : ℤ) : ℚ) then (((⌊x * 10⌋ : ℤ) : ℚ) + 1) / 10
     else if ⌊x * 10⌋ % 2 = 0 then ((⌊x * 10⌋ : ℤ) : ℚ) / 10
     else (((⌊x * 10⌋ : ℤ) : ℚ) + 1) / 10)
  split
  · positivity
  · split
    · positivity
    · split
      · positivity
      · positivity

/-- Claim C10: `round_rule_annex_iv` always yields a non-negative integer,
and yields exactly 0 on every input `x ≤ 0`. -/
theorem round_rule_annex_iv_nonneg (x : ℚ) :
    0 ≤ round_rule_annex_iv x ∧ (x ≤ 0 → round_rule_annex_iv x = 0) := by
  constructor
  · unfold round_rule_annex_iv
    split
    · exact le_refl 0
    · rename_i hx
      have hx' : 0 ≤ x := le_of_lt (lt_of_not_le hx)
      have hv : 0 ≤ pyRound1 x := pyRound1_nonneg x hx'
      have hi : (0 : ℤ) ≤ ⌊pyRound1 x⌋ := Int.floor_nonneg.mpr hv
      show 0 ≤
        (if 1 / 2 ≤ pyRound1 x - ((⌊pyRound1 x⌋ : ℤ) : ℚ) then ⌊pyRound1 x⌋ + 1
         else max ⌊pyRound1 x⌋ 0)
      split
      · omega
      · exact le_max_right _ _
  · intro hx
    unfold round_rule_annex_iv
    exact if_pos hx

/-- Witness for C10 at the concrete input -1. -/
theorem round_rule_annex_iv_nonneg_witness :
    0 ≤ round_rule_annex_iv (-1) ∧ round_rule_annex_iv (-1) = 0 :=
  ⟨(round_rule_annex_iv_nonneg (-1)).1,
   (round_rule_annex_iv_nonneg (-1)).2 (by norm_num)⟩

/-- A clamped product vanishes when the second factor is clamped to 0. -/
theorem mulmax_zero_right (A B : ℚ) (h : B ≤ 0) : max A 0 * max B 0 = 0 := by
  rw [max_eq_right h, mul_zero]

/-- A clamped product vanishes when the first factor is clamped to 0. -/
theorem mulmax_zero_left (A B : ℚ) (h : A ≤ 0) : max A 0 * max B 0 = 0 := by
  rw [max_eq_right h, zero_mul]

/-- Claim C4: for non-negative inputs and every flag combination, the
envelope has non-negative usable width and depth, its interior area is the
product of the two, the area is zero whenever the front plus rear setbacks
reach the depth, and the area is zero whenever the side and front setbacks
each reach the frontage. -/
theorem envelope_area_clamps (t p fr fn lt : ℚ) (e c a : Bool)
    (ht : 0 ≤ t) (hfr : 0 ≤ fr) (hfn : 0 ≤ fn) (hlt : 0 ≤ lt) :
    0 ≤ (envelope_area t p fr fn lt e c a).largura_util ∧
    0 ≤ (envelope_area t p fr fn lt e c a).prof_util ∧
    (envelope_area t p fr fn lt e c a).area_miolo =
      (envelope_area t p fr fn lt e c a).largura_util *
        (envelope_area t p fr fn lt e c a).prof_util ∧
    (p ≤ fr + fn → (envelope_area t p fr fn lt e c a).area_miolo = 0) ∧
    (t ≤ lt ∧ t ≤ fr → (envelope_area t p fr fn lt e c a).area_miolo = 0) := by
  cases e <;> cases c <;> cases a
  · exact ⟨le_max_right _ _, le_max_right _ _, rfl,
      fun h => mulmax_zero_right (t - (lt + lt)) (p - fr - fn) (by linarith),
      fun h => mulmax_zero_left (t - (lt + lt)) (p - fr - fn) (by linarith [h.1])⟩
  · exact ⟨le_max_right _ _, le_max_right _ _, rfl,
      fun h => mulmax_zero_right (t - (0 + lt)) (p - fr - fn) (by linarith),
      fun h => mulmax_zero_left (t - (0 + lt)) (p - fr - fn) (by linarith [h.1])⟩
  · exact ⟨le_max_right _ _, le_max_right _ _, rfl,
      fun h => mulmax_zero_right (t - (lt + lt)) (p - fr - fn) (by linarith),
      fun h => mulmax_zero_left (t - (lt + lt)) (p - fr - fn) (by linarith [h.1])⟩
  · exact ⟨le_max_right _ _, le_max_right _ _, rfl,
      fun h => mulmax_zero_right (t - (0 + lt)) (p - fr - fn) (by linarith),
      fun h => mulmax_zero_left (t - (0 + lt)) (p - fr - fn) (by linarith [h.1])⟩
  · exact ⟨le_max_right _ _, le_max_right _ _, rfl,
      fun h => mulmax_zero_right (t - (lt + lt)) (p - fr - fn) (by linarith),
      fun h => mulmax_zero_left (t - (lt + lt)) (p - fr - fn) (by linarith [h.1])⟩
  · exact ⟨le_max_right _ _, le_max_right _ _, rfl,
      fun h => mulmax_zero_right (t - (0 + lt)) (p - fr - fn) (by linarith),
      fun h => mulmax_zero_left (t - (0 + lt)) (p - fr - fn) (by linarith [h.1])⟩
  · exact ⟨le_max_right _ _, le_max_right _ _, rfl,
      fun h => mulmax_zero_right (t - (lt + fr)) (p - fr - fn) (by linarith),
      fun h => mulmax_zero_left (t - (lt + fr)) (p - fr - fn) (by linarith [h.1])⟩
  · exact ⟨le_max_right _ _, le_max_right _ _, rfl,
      fun h => mulmax_zero_right (t - (0 + fr)) (p - fr - fn) (by linarith),
      fun h => mulmax_zero_left (t - (0 + fr)) (p - fr - fn) (by linarith [h.2])⟩

/-- Witness for C4 at the spec's 10 × 30 lot with 5/1.5/3 setbacks. -/
theorem envelope_area_clamps_witness :
    0 ≤ (envelope_area 10 30 5 3 (3 / 2) false false false).largura_util ∧
    0 ≤ (envelope_area 10 30 5 3 (3 / 2) false false false).prof_util ∧
    (envelope_area 10 30 5 3 (3 / 2) false false false).area_miolo =
      (envelope_area 10 30 5 3 (3 / 2) false false false).largura_util *
        (envelope_area 10 30 5 3 (3 / 2) false false false).prof_util ∧
    ((30 : ℚ) ≤ 5 + 3 →
      (envelope_area 10 30 5 3 (3 / 2) false false false).area_miolo = 0) ∧
    ((10 : ℚ) ≤ 3 / 2 ∧ (10 : ℚ) ≤ 5 →
      (envelope_area 10 30 5 3 (3 / 2) false false false).area_miolo = 0) :=
  envelope_area_clamps 10 30 5 3 (3 / 2) false false false
    (by norm_num) (by norm_num) (by norm_num) (by norm_num)

/-- Claim C6: under the corner two-frontage regime the usable width drops
the internal side setback plus the front setback (the secondary frontage),
the usable depth drops front and rear setbacks, and `attach_one_side`
zeroes only the internal side setback, never the secondary-frontage term. -/
theorem envelope_area_corner_two_fronts (t p fr fn lt : ℚ) :
    (envelope_area t p fr fn lt true true false).largura_util =
      max (t - (lt + fr)) 0 ∧
    (envelope_area t p fr fn lt true true true).largura_util =
      max (t - fr) 0 ∧
    (envelope_area t p fr fn lt true true false).prof_util =
      max (p - fr - fn) 0 ∧
    (envelope_area t p fr fn lt true true true).prof_util =
      max (p - fr - fn) 0 ∧
    (envelope_area t p fr fn lt true true false).esquina_modelo =
      "esquina_2_frentes" := by
  refine ⟨?_, ?_, ?_, ?_, ?_⟩ <;> simp [envelope_area]

/-- Query points are (x, y) pairs of rationals (longitude/latitude, or
projected metres for the street layer). -/
abbrev Pt := ℚ × ℚ

/-- GeoJSON property mappings, modelled as string-keyed association lists. -/
abbrev ZProps := List (String × String)

/-- An axis-aligned bounding box, the basis of the STRtree candidate
filter. -/
structure BBox where
  minx : ℚ
  miny : ℚ
  maxx : ℚ
  maxy : ℚ
deriving DecidableEq

/-- Whether a bounding box contains a point (STRtree `query` test for a
point geometry). -/
def BBox.containsPt (b : BBox) (q : Pt) : Bool :=
  decide (b.minx ≤ q.1) && decide (q.1 ≤ b.maxx) &&
    decide (b.miny ≤ q.2) && decide (q.2 ≤ b.maxy)

/-- A zone polygon as used by the code: shapely gives it a strict-interior
containment test (`contains`, also the prepared-geometry test), a
boundary-inclusive test (`intersects`), and a bounding box. -/
structure PolyGeom where
  contains : Pt → Bool
  intersects : Pt → Bool
  bbox : BBox

/-- A projected street polyline as used by the code: shapely gives it a
planar distance to a point and a bounding box. -/
structure LineGeom where
  dist : Pt → ℚ
  bbox : BBox

/-- Model of `STRtree.query(p)`: the indices of all stored geometries whose bounding
box contains the query point (a superset of the exact matches). -/
def treeQuery (entries : List (PolyGeom × ZProps)) (q : Pt) : List Nat :=
  (List.range entries.length).filter (fun i =>
    match entries[i]? with
    | some e => e.1.bbox.containsPt q
    | none => false)

/-- The candidate loop of src/app.py lines 329-335: for each candidate
index, return the properties of the first geometry whose prepared
`contains` or fallback `intersects` accepts the point. -/
def scanZones (entries : List (PolyGeom × ZProps)) (q : Pt) :
    List Nat → Option ZProps
  | [] => none
  | i :: rest =>
    match entries[i]? with
    | none => scanZones entries q rest
    | some e =>
      if e.1.contains q || e.1.intersects q then some e.2
      else scanZones entries q rest

/-- src/app.py lines 315-348 (`find_zone_for_click`): empty index returns
none, otherwise scan the tree candidates with contains-then-intersects. -/
def find_zone_for_click (entries : List (PolyGeom × ZProps)) (q : Pt) :
    Option ZProps :=
  if entries.isEmpty then none
  else scanZones entries q (treeQuery entries q)

/-- The candidate loop of src/parking_v2.py lines 70-73: only the prepared
`contains` test is applied, with no `intersects` fallback. -/
def geoScanContains (entries : List (PolyGeom × ZProps)) (q : Pt) :
    List Nat → Option ZProps
  | [] => none
  | i :: rest =>
    match entries[i]? with
    | none => geoScanContains entries q rest
    | some e =>
      if e.1.contains q then some e.2 else geoScanContains entries q rest

/-- src/parking_v2.py lines 66-80 (`GeoEngine.find_zone_for_click`): scan
the tree candidates with `contains` only, then a brute-force fallback over
every indexed geometry, still with `contains` only. -/
def GeoEngine_find_zone_for_click (entries : List (PolyGeom × ZProps))
    (q : Pt) : Option ZProps :=
  match geoScanContains entries q (treeQuery entries q) with
  | some pr => some pr
  | none =>
    match entries.find? (fun e => e.1.contains q) with
    | some e => some e.2
    | none => none

/-- Model of `STRtree.nearest(p)` composed with the distance read-out: the
properties and exact planar distance of the geometry nearest to the query
point (first one on ties), or none for an empty collection
(src/app.py lines 382-397). -/
def bestStreet (q : Pt) : List (LineGeom × ZProps) → Option (ZProps × ℚ)
  | [] => none
  | (g, pr) :: rest =>
    match bestStreet q rest with
    | none => some (pr, g.dist q)
    | some (pr2, d2) =>
      if g.dist q ≤ d2 then some (pr, g.dist q) else some (pr2, d2)

/-- src/app.py lines 372-405 (`find_nearest_street`): take the nearest
indexed street; if its distance exceeds `max_dist_m` return none, else
return its properties. -/
def find_nearest_street (entries : List (LineGeom × ZProps)) (q : Pt)
    (max_dist_m : ℚ) : Option ZProps :=
  match bestStreet q entries with
  | none => none
  | some (pr, d) => if max_dist_m < d then none else some pr

/-- The outcome of reading a GeoJSON feature's geometry: the key can be
absent, `shape` can raise on a malformed dictionary, or parsing succeeds. -/
inductive RawGeom where
  | missing
  | malformed
  | ok (g : PolyGeom)

/-- A raw GeoJSON feature: geometry plus property mapping. -/
structure RawFeature where
  geometry : RawGeom
  properties : ZProps

/-- src/app.py lines 295-312 (`build_zone_index`): features with missing or
unparseable geometry are skipped; the rest are indexed in order, geometry
and properties kept in lockstep. -/
def build_zone_index : List RawFeature → List (PolyGeom × ZProps)
  | [] => []
  | f :: rest =>
    match f.geometry with
    | .ok g => (g, f.properties) :: build_zone_index rest
    | _ => build_zone_index rest

/-- src/parking_v2.py lines 45-47 (`GeoEngine.__init__`): the zone
geometries are built with a bare list comprehension
`[shape(f["geometry"]) for f in features]` — a missing key raises KeyError
and a malformed geometry makes `shape` raise, so the first bad feature
aborts the whole construction. -/
def GeoEngine_zone_geoms : List RawFeature → Except Unit (List (PolyGeom × ZProps))
  | [] => .ok []
  | f :: rest =>
    match f.geometry with
    | .ok g => (GeoEngine_zone_geoms rest).map (fun tl => (g, f.properties) :: tl)
    | _ => .error ()

/-- A bounding-box hit puts an index into the STRtree candidate list. -/
theorem mem_treeQuery (entries : List (PolyGeom × ZProps)) (q : Pt) (i : Nat)
    (hi : i < entries.length) (hbb : (entries[i]).1.bbox.containsPt q = true) :
    i ∈ treeQuery entries q := by
  unfold treeQuery
  refine List.mem_filter.mpr ⟨List.mem_range.mpr hi, ?_⟩
  simp only [List.getElem?_eq_getElem hi]
  exact hbb

/-- If index `i` passes the contains-or-intersects test and every other
index fails it, the candidate scan returns the properties of entry `i`
whenever `i` is among the candidates. -/
theorem scanZones_first (entries : List (PolyGeom × ZProps)) (q : Pt) (i : Nat)
    (hi : i < entries.length)
    (hpass : ((entries[i]).1.contains q || (entries[i]).1.intersects q) = true)
    (huniq : ∀ j (hj : j < entries.length), j ≠ i →
      ((entries[j]).1.contains q || (entries[j]).1.intersects q) = false) :
    ∀ l : List Nat, i ∈ l → scanZones entries q l = some (entries[i]).2 := by
  intro l
  induction l with
  | nil => intro h; simp at h
  | cons j rest ih =>
    intro hmem
    by_cases hji : j = i
    · subst hji
      unfold scanZones
      simp only [List.getElem?_eq_getElem hi]
      simp [hpass]
    · have hit : i ∈ rest := by
        rcases List.mem_cons.mp hmem with h | h
        · exact absurd h.symm hji
        · exact h
      unfold scanZones
      by_cases hj : j < entries.length
      · simp only [List.getElem?_eq_getElem hj]
        simp only [huniq j hj hji, Bool.false_eq_true, if_false]
        exact ih hit
      · rw [List.getElem?_eq_none (le_of_not_lt hj)]
        exact ih hit

/-- Claim C2 (amended, src/app.py part): if the query point lies exactly on
the edge of indexed polygon `i` (containment fails but the
boundary-touching intersects test passes), its bounding box registers the
point, and no other indexed polygon matches the point, then
`find_zone_for_click` returns that polygon's property mapping rather than
none. -/
theorem find_zone_for_click_boundary (entries : List (PolyGeom × ZProps))
    (q : Pt) (i : Nat) (hi : i < entries.length)
    (hbb : (entries[i]).1.bbox.containsPt q = true)
    (hnc : (entries[i]).1.contains q = false)
    (hint : (entries[i]).1.intersects q = true)
    (huniq : ∀ j (hj : j < entries.length), j ≠ i →
      (entries[j]).1.contains q = false ∧ (entries[j]).1.intersects q = false) :
    find_zone_for_click entries q = some (entries[i]).2 := by
  have hne : entries.isEmpty = false := by
    cases entries with
    | nil => simp at hi
    | cons e rest => rfl
  unfold find_zone_for_click
  rw [hne]
  simp only [Bool.false_eq_true, if_false]
  exact scanZones_first entries q i hi (by simp [hnc, hint])
    (fun j hj hji => by simp [(huniq j hj hji).1, (huniq j hj hji).2])
    (treeQuery entries q) (mem_treeQuery entries q i hi hbb)

/-- A concrete square zone polygon covering [0,2] × [0,2]: `contains` is
shapely's strict interior test, `intersects` additionally accepts the
boundary. -/
def squareZone : PolyGeom where
  contains := fun q => decide (0 < q.1 ∧ q.1 < 2 ∧ 0 < q.2 ∧ q.2 < 2)
  intersects := fun q => decide (0 ≤ q.1 ∧ q.1 ≤ 2 ∧ 0 ≤ q.2 ∧ q.2 ≤ 2)
  bbox := ⟨0, 0, 2, 2⟩

/-- Witness for the amended C2: the point (0, 1) on the left edge of the
square zone is matched via the intersects fallback. -/
theorem find_zone_for_click_boundary_witness :
    find_zone_for_click [(squareZone, [("sigla", "Z1")])] (0, 1) =
      some [("sigla", "Z1")] :=
  find_zone_for_click_boundary [(squareZone, [("sigla", "Z1")])] (0, 1) 0
    (by decide) (by decide) (by decide) (by decide)
    (fun j hj hji => absurd (Nat.lt_one_iff.mp hj) hji)

/-- Claim C2 is false for `GeoEngine.find_zone_for_click`
(src/parking_v2.py): it applies only the strict containment test, so a
query point lying exactly on the edge of the only indexed polygon returns
none instead of that polygon's property mapping. -/
theorem GeoEngine_find_zone_boundary_counterexample :
    GeoEngine_find_zone_for_click [(squareZone, [("sigla", "Z1")])] (0, 1) =
      none ∧
    squareZone.contains (0, 1) = false ∧
    squareZone.intersects (0, 1) = true := by
  refine ⟨by decide, by decide, by decide⟩

/-- A nonempty street collection always has a nearest entry. -/
theorem bestStreet_cons_ne_none (q : Pt) (g : LineGeom) (pr : ZProps)
    (rest : List (LineGeom × ZProps)) :
    bestStreet q ((g, pr) :: rest) ≠ none := by
  cases hb : bestStreet q rest with
  | none => simp [bestStreet, hb]
  | some v =>
    obtain ⟨pr2, d2⟩ := v
    simp only [bestStreet, hb]
    split <;> simp

/-- The distance attached by `bestStreet` is minimal over the collection. -/
theorem bestStreet_min (q : Pt) (entries : List (LineGeom × ZProps))
    (pr : ZProps) (d : ℚ) (h : bestStreet q entries = some (pr, d)) :
    ∀ e ∈ entries, d ≤ e.1.dist q := by
  induction entries generalizing pr d with
  | nil => simp [bestStreet] at h
  | cons e rest ih =>
    obtain ⟨g, pr0⟩ := e
    cases hb : bestStreet q rest with
    | none =>
      simp only [bestStreet, hb, Option.some.injEq, Prod.mk.injEq] at h
      intro e he
      rcases List.mem_cons.mp he with he0 | he1
      · subst he0; exact le_of_eq h.2.symm
      · cases rest with
        | nil => simp at he1
        | cons e2 r2 =>
          obtain ⟨g2, pr2⟩ := e2
          exact absurd hb (bestStreet_cons_ne_none q g2 pr2 r2)
    | some v =>
      obtain ⟨pr2, d2⟩ := v
      simp only [bestStreet, hb] at h
      have hrest := ih pr2 d2 hb
      intro e he
      rcases List.mem_cons.mp he with he0 | he1
      · subst he0
        split at h <;> simp only [Option.some.injEq, Prod.mk.injEq] at h
        · exact le_of_eq h.2.symm
        · rename_i hlt
          rw [← h.2]
          exact le_of_lt (lt_of_not_le hlt)
      · split at h <;> simp only [Option.some.injEq, Prod.mk.injEq] at h
        · rename_i hle
          rw [← h.2]
          exact le_trans hle (hrest e he1)
        · rw [← h.2]
          exact hrest e he1

/-- Claim C5 (amended, src/app.py part): the feature selected by
`find_nearest_street` does not depend on the search radius — a feature
reported at radius r1 is reported at any larger radius r2 — the result is
none exactly when the collection is empty or the nearest entry's distance
exceeds the radius, and the attached distance is genuinely minimal over
all indexed streets. -/
theorem find_nearest_street_radius_independent
    (entries : List (LineGeom × ZProps)) (q : Pt) :
    (∀ r1 r2 : ℚ, r1 ≤ r2 → ∀ pr, find_nearest_street entries q r1 = some pr →
      find_nearest_street entries q r2 = some pr) ∧
    (∀ r : ℚ, find_nearest_street entries q r = none ↔
      (entries = [] ∨ ∃ pr d, bestStreet q entries = some (pr, d) ∧ r < d)) ∧
    (∀ pr d, bestStreet q entries = some (pr, d) → ∀ e ∈ entries, d ≤ e.1.dist q) := by
  refine ⟨?_, ?_, fun pr d h => bestStreet_min q entries pr d h⟩
  · intro r1 r2 h12 pr h1
    cases hb : bestStreet q entries with
    | none => simp [find_nearest_street, hb] at h1
    | some v =>
      obtain ⟨pr0, d⟩ := v
      simp only [find_nearest_street, hb] at h1 ⊢
      split at h1
      · exact absurd h1 (by simp)
      · rename_i hnd
        rw [if_neg (by push_neg at hnd ⊢; linarith)]
        exact h1
  · intro r
    cases hb : bestStreet q entries with
    | none =>
      have hnil : entries = [] := by
        cases entries with
        | nil => rfl
        | cons e rest =>
          obtain ⟨g, pr0⟩ := e
          exact absurd hb (bestStreet_cons_ne_none q g pr0 rest)
      simp [find_nearest_street, hb, hnil, bestStreet]
    | some v =>
      obtain ⟨pr0, d0⟩ := v
      simp only [find_nearest_street, hb]
      constructor
      · intro h
        split at h
        · rename_i hrd
          exact Or.inr ⟨pr0, d0, rfl, hrd⟩
        · exact absurd h (by simp)
      · rintro (hnil | ⟨pr1, d1, hbd, hrd⟩)
        · rw [hnil] at hb; simp [bestStreet] at hb
        · simp only [Option.some.injEq, Prod.mk.injEq] at hbd
          rw [hbd.2]
          exact if_pos hrd

/-- A concrete street at constant distance 5 m. -/
def lineA : LineGeom := { dist := fun _ => 5, bbox := ⟨0, 0, 1, 1⟩ }

/-- A concrete street at constant distance 7 m. -/
def lineB : LineGeom := { dist := fun _ => 7, bbox := ⟨0, 0, 1, 1⟩ }

/-- Two demo streets with their property mappings. -/
def demoStreets : List (LineGeom × ZProps) :=
  [(lineA, [("log_ofic", "Rua A")]), (lineB, [("log_ofic", "Rua B")])]

/-- Witness for C5: the street found at radius 6 is still found at
radius 10. -/
theorem find_nearest_street_radius_independent_witness :
    find_nearest_street demoStreets (0, 0) 10 = some [("log_ofic", "Rua A")] :=
  (find_nearest_street_radius_independent demoStreets (0, 0)).1 6 10 (by norm_num)
    [("log_ofic", "Rua A")] (by decide)

/-- Model of `STRtree.query(p)` on the projected street layer: the indices
of all stored street geometries whose bounding box contains the query
point. -/
def streetTreeQuery (entries : List (LineGeom × ZProps)) (q : Pt) : List Nat :=
  (List.range entries.length).filter (fun i =>
    match entries[i]? with
    | some e => e.1.bbox.containsPt q
    | none => false)

/-- The minimum-distance loop of src/parking_v2.py lines 89-93 (also
reused for the brute-force pass at lines 97-101): scan the given candidate
indices, keeping the first strictly smaller distance (`best_idx`,
`best_d`). -/
def geoBestLoop (entries : List (LineGeom × ZProps)) (q : Pt) :
    List Nat → Option (Nat × ℚ) → Option (Nat × ℚ)
  | [], best => best
  | i :: rest, best =>
    match entries[i]? with
    | none => geoBestLoop entries q rest best
    | some e =>
      match best with
      | none => geoBestLoop entries q rest (some (i, e.1.dist q))
      | some (bi, bd) =>
        if e.1.dist q < bd then geoBestLoop entries q rest (some (i, e.1.dist q))
        else geoBestLoop entries q rest (some (bi, bd))

/-- src/parking_v2.py lines 82-108 (`GeoEngine.find_nearest_street`):
minimize the distance over the bbox candidate set only; run the
brute-force pass over every street only when that set produced no best
index; return none when nothing was found or the best distance exceeds
`max_dist_m`, else the matched properties with the distance attached
(the `_dist_m` entry). -/
def GeoEngine_find_nearest_street (entries : List (LineGeom × ZProps))
    (q : Pt) (max_dist_m : ℚ) : Option (ZProps × ℚ) :=
  let best := geoBestLoop entries q (streetTreeQuery entries q) none
  let best2 :=
    match best with
    | none => geoBestLoop entries q (List.range entries.length) none
    | some b => some b
  match best2 with
  | none => none
  | some (i, d) =>
    if max_dist_m < d then none
    else
      match entries[i]? with
      | none => none
      | some e => some (e.2, d)

/-- A long diagonal street: its bounding box contains the origin but its
exact distance to the origin is 69 m. -/
def lineFar : LineGeom := { dist := fun _ => 69, bbox := ⟨-10, -10, 10, 10⟩ }

/-- A short street near the origin: exact distance 4 m, but its bounding
box does not contain the origin. -/
def lineNear : LineGeom := { dist := fun _ => 4, bbox := ⟨6, 6, 8, 8⟩ }

/-- A street collection whose true nearest street to the origin is not a
bounding-box candidate of the origin. -/
def demoStreets2 : List (LineGeom × ZProps) :=
  [(lineFar, [("log_ofic", "Rua Longe")]), (lineNear, [("log_ofic", "Rua Perto")])]

/-- Claim C5 is false for `GeoEngine.find_nearest_street`
(src/parking_v2.py): it minimizes only over the bbox candidate set and
brute-forces only when that set yields nothing, so with the nearest street
(4 m, within the 50 m radius) absent from the candidates and a 69 m
candidate present, it returns none — while src/app.py's
`find_nearest_street` returns the true nearest street, whose minimal
distance 4 m does not exceed the radius. -/
theorem GeoEngine_find_nearest_street_radius_counterexample :
    GeoEngine_find_nearest_street demoStreets2 (0, 0) 50 = none ∧
    find_nearest_street demoStreets2 (0, 0) 50 = some [("log_ofic", "Rua Perto")] ∧
    bestStreet (0, 0) demoStreets2 = some ([("log_ofic", "Rua Perto")], 4) ∧
    (4 : ℚ) ≤ 50 := by
  refine ⟨by decide, by decide, by decide, by decide⟩

/-- The builder `build_zone_index` distributes over list append. -/
theorem build_zone_index_append (xs ys : List RawFeature) :
    build_zone_index (xs ++ ys) = build_zone_index xs ++ build_zone_index ys := by
  induction xs with
  | nil => rfl
  | cons f rest ih =>
    cases hf : f.geometry with
    | ok g => simp [build_zone_index, hf, ih]
    | missing => simp [build_zone_index, hf, ih]
    | malformed => simp [build_zone_index, hf, ih]

/-- Every feature with parseable geometry ends up in the built index. -/
theorem build_zone_index_mem (l : List RawFeature) (fe : RawFeature)
    (hfe : fe ∈ l) (g : PolyGeom) (hg : fe.geometry = .ok g) :
    (g, fe.properties) ∈ build_zone_index l := by
  induction l with
  | nil => simp at hfe
  | cons f rest ih =>
    rcases List.mem_cons.mp hfe with h | h
    · subst h
      simp [build_zone_index, hg]
    · cases hf : f.geometry with
      | ok g2 =>
        simp only [build_zone_index, hf]
        exact List.mem_cons_of_mem _ (ih h)
      | missing => simpa [build_zone_index, hf] using ih h
      | malformed => simpa [build_zone_index, hf] using ih h

/-- Claim C8 (amended, src/app.py part): during `build_zone_index`
construction a feature with missing or unparseable geometry is skipped
without disturbing the rest — the index of the collection with the bad
feature spliced in is exactly the concatenation of the indexes of the two
halves — and every remaining parseable feature is still indexed. -/
theorem build_zone_index_skips_bad (xs ys : List RawFeature) (f : RawFeature)
    (hbad : f.geometry = .missing ∨ f.geometry = .malformed) :
    build_zone_index (xs ++ f :: ys) = build_zone_index xs ++ build_zone_index ys ∧
    (∀ fe ∈ xs ++ f :: ys, ∀ g : PolyGeom, fe.geometry = .ok g →
      (g, fe.properties) ∈ build_zone_index (xs ++ f :: ys)) := by
  constructor
  · rw [build_zone_index_append]
    congr 1
    rcases hbad with h | h <;> simp [build_zone_index, h]
  · intro fe hfe g hg
    exact build_zone_index_mem _ fe hfe g hg

/-- A demo feature whose geometry parses. -/
def okFeat : RawFeature :=
  { geometry := .ok squareZone, properties := [("sigla", "ZR1")] }

/-- A demo feature whose geometry dictionary makes `shape` raise. -/
def badFeat : RawFeature :=
  { geometry := .malformed, properties := [("sigla", "ZR2")] }

/-- Witness for the amended C8 on a concrete three-feature collection. -/
theorem build_zone_index_skips_bad_witness :
    build_zone_index ([okFeat] ++ badFeat :: [okFeat]) =
      build_zone_index [okFeat] ++ build_zone_index [okFeat] ∧
    (∀ fe ∈ [okFeat] ++ badFeat :: [okFeat], ∀ g : PolyGeom,
      fe.geometry = .ok g →
      (g, fe.properties) ∈ build_zone_index ([okFeat] ++ badFeat :: [okFeat])) :=
  build_zone_index_skips_bad [okFeat] [okFeat] badFeat (Or.inr rfl)

/-- Claim C8 is false for `GeoEngine.__init__` (src/parking_v2.py): its
bare list comprehension propagates the parse failure, so one malformed
feature aborts the whole construction instead of being skipped, while
src/app.py's `build_zone_index` keeps the good feature. -/
theorem GeoEngine_init_aborts_counterexample :
    GeoEngine_zone_geoms [okFeat, badFeat] = .error () ∧
    build_zone_index [okFeat, badFeat] = [(squareZone, [("sigla", "ZR1")])] := by
  constructor <;> rfl

/-- Numeric lookup in the Python `inputs` dictionary
(`inputs.get(key)` for keys holding numbers). -/
def lookupNum (xs : List (String × ℚ)) (k : String) : Option ℚ :=
  (xs.find? (fun kv => kv.1 == k)).map (fun kv => kv.2)

/-- Python `s.upper()` (the use codes involved are ASCII). -/
def pyUpper (s : String) : String := String.mk (s.data.map Char.toUpper)

/-- Python `s.startswith(p)`. -/
def pyStartsWith (s p : String) : Bool := p.data.isPrefixOf s.data

/-- Whether `sub` occurs as a contiguous sublist of `l`. -/
def charSubList (sub : List Char) : List Char → Bool
  | [] => sub.isEmpty
  | c :: rest => sub.isPrefixOf (c :: rest) || charSubList sub rest

/-- Python `sub in s` substring test. -/
def pyContainsSub (s sub : String) : Bool := charSubList sub.data s.data

/-- The residential-use test of src/core/app_main.py lines 417-418:
`usec.startswith("RES_UNI") or usec.startswith("RES_MULTI") or
("RESIDEN" in usec)` on the upper-cased use code. -/
def is_res_use (use_code : Option String) : Bool :=
  let usec := pyUpper (use_code.getD "")
  pyStartsWith usec "RES_UNI" || pyStartsWith usec "RES_MULTI" ||
    pyContainsSub usec "RESIDEN"

/-- A band inside a `band_ratio` rule.  Numeric parameters are `Option ℚ`:
`none` models an absent key, whose `float(...)` coercion raises. -/
structure ParkBand where
  min_m2 : Option ℚ := none
  max_m2 : Option ℚ := none
  per_m2 : Option ℚ := none
  text : Option String := none
deriving DecidableEq

/-- A rule record inside `rule_json["rules"]`.  Field names mirror the JSON
keys read by `calc_parking_v2`. -/
structure ParkRule where
  type : Option String := none
  value : Option ℚ := none
  per_m2 : Option ℚ := none
  per_units : Option ℚ := none
  per_unit : Option ℚ := none
  bands : List ParkBand := []
  max_m2 : Option ℚ := none
  min_m2 : Option ℚ := none
  count : Option ℚ := none
  text : Option String := none
  condition : Option String := none
deriving DecidableEq

/-- The parts of `rule_json` that `calc_parking_v2` computes with (the
fields it merely copies into the output verbatim are not modelled). -/
structure ParkRuleJson where
  use_code : Option String := none
  base_metric : Option String := none
  rules : List ParkRule := []
deriving DecidableEq

/-- The parts of the `inputs` dictionary that `calc_parking_v2` reads:
numeric entries, plus the truthiness of the two boolean flags. -/
structure ParkInputs where
  numeric : List (String × ℚ) := []
  is_via_local : Bool := false
  near_vlt : Bool := false
deriving DecidableEq

/-- The computed fields of the result record of `calc_parking_v2` (the
fields that merely echo the inputs are not modelled). -/
structure ParkOut where
  raw : Option ℚ
  required : Option ℤ
  applied_rule_text : Option String
  adjustments : List (ℤ × ℤ)
  notes : List String
deriving DecidableEq

/-- Band matching of src/core/app_main.py lines 455-458: first band with
`area >= min_m2` (default 0) and (`max_m2` absent or `area <= max_m2`). -/
def bandMatches (area : ℚ) (b : ParkBand) : Bool :=
  decide (b.min_m2.getD 0 ≤ area) &&
    (match b.max_m2 with
     | none => true
     | some mx => decide (area ≤ mx))

/-- The `for r in rules` loop of `calc_parking_v2`
(src/core/app_main.py lines 428-502).  Returns the pair (raw, applied
rule text) of the first rule that fires (`none` when the loop falls
through) together with the accumulated notes; `.error` models an uncaught
Python exception (`float(None)` raising TypeError on a missing numeric
key, or `eval` failing inside `safe_eval_condition`).  `evalCond` is the
oracle for `safe_eval_condition` on a truthy condition string. -/
def runRules (evalCond : String → Except Unit Bool) (base_metric : Option String)
    (inputs : ParkInputs) (area : ℚ) :
    List ParkRule → List String → Except Unit (Option (ℚ × Option String) × List String)
  | [], notes => .ok (none, notes)
  | r :: rs, notes =>
    if r.type == some "fixed" then
      .ok (some (r.value.getD 0, r.text), notes)
    else if r.type == some "ratio" then
      if base_metric == some "area_util_m2" then
        match r.per_m2 with
        | none => .error ()
        | some per =>
          .ok (some (if per == 0 then 0 else area / per, r.text), notes)
      else
        match r.per_units with
        | none => .error ()
        | some pu =>
          let qty := (base_metric.bind (lookupNum inputs.numeric)).getD 0
          .ok (some (if pu == 0 then 0 else qty / pu, r.text), notes)
    else if r.type == some "band_ratio" then
      if base_metric != some "area_util_m2" then
        runRules evalCond base_metric inputs area rs notes
      else
        match r.bands.find? (bandMatches area) with
        | none => runRules evalCond base_metric inputs area rs notes
        | some b =>
          match b.per_m2 with
          | none => .error ()
          | some per =>
            .ok (some (if per == 0 then 0 else area / per, b.text), notes)
    else if r.type == some "threshold_fixed" || r.type == some "fixed_or_band" then
      if base_metric != some "area_util_m2" then
        runRules evalCond base_metric inputs area rs notes
      else
        match r.max_m2 with
        | none =>
          runRules evalCond base_metric inputs area rs
            (notes ++ ["Regra textual (fixed_or_band) - precisa padronizar em JSON calculável."])
        | some mx =>
          if area ≤ mx then .ok (some (r.count.getD 0, r.text), notes)
          else runRules evalCond base_metric inputs area rs notes
    else if r.type == some "ratio_above_threshold" then
      if base_metric != some "area_util_m2" then
        runRules evalCond base_metric inputs area rs notes
      else
        match r.min_m2 with
        | none => .error ()
        | some mn =>
          if mn ≤ area then
            match r.per_m2 with
            | none => .error ()
            | some per =>
              .ok (some (if per == 0 then 0 else area / per, r.text), notes)
          else runRules evalCond base_metric inputs area rs notes
    else if r.type == some "per_unit" || r.type == some "per_unit_with_condition" then
      let qty := (lookupNum inputs.numeric "apartamentos").getD 0
      let val := r.value.getD (r.per_unit.getD 0)
      match r.condition with
      | some c =>
        if c ≠ "" then
          match evalCond c with
          | .error e => .error e
          | .ok true => .ok (some (qty * val, r.text), notes)
          | .ok false => runRules evalCond base_metric inputs area rs notes
        else .ok (some (qty * val, r.text), notes)
      | none => .ok (some (qty * val, r.text), notes)
    else runRules evalCond base_metric inputs area rs notes

/-- src/core/app_main.py lines 392-521 (`calc_parking_v2`): the local-street
waiver, the rule loop, the "insufficient data" fallback, the Annex IV
rounding, and the VLT 20% reduction. -/
def calc_parking_v2 (evalCond : String → Except Unit Bool)
    (rule_json : ParkRuleJson) (inputs : ParkInputs) : Except Unit ParkOut :=
  let base_metric := rule_json.base_metric
  let area := (lookupNum inputs.numeric "area_util_m2").getD 0
  if inputs.is_via_local && (base_metric == some "area_util_m2") &&
      decide (0 < area) && decide (area ≤ 100) && !(is_res_use rule_json.use_code) then
    .ok { raw := some 0, required := some 0,
          applied_rule_text := some "Dispensa: não residencial ≤ 100m² em via local.",
          adjustments := [], notes := [] }
  else
    match runRules evalCond base_metric inputs area rule_json.rules [] with
    | .error e => .error e
    | .ok (none, notes) =>
      .ok { raw := none, required := none, applied_rule_text := none,
            adjustments := [],
            notes := notes ++ ["Sem dados suficientes para calcular automaticamente."] }
    | .ok (some (raw, text), notes) =>
      let req := round_rule_annex_iv raw
      if inputs.near_vlt && decide (0 < req) then
        let reduced := ⌈(req : ℚ) * (8 / 10)⌉
        .ok { raw := some raw, required := some reduced, applied_rule_text := text,
              adjustments := [(req, reduced)], notes := notes }
      else
        .ok { raw := some raw, required := some req, applied_rule_text := text,
              adjustments := [], notes := notes }

/-- Claim C3: when both the TO-limited area and the envelope area are
present, `compute_urbanism` reports their minimum; for occupancy ratio 0.5
on a 300 m² lot with a 154 m² envelope the reported value is 150 m², which
equals the TO limit (the occupancy ratio, not the setbacks, binds). -/
theorem area_max_ocupacao_real_is_min :
    (∀ a m : ℚ, area_max_ocupacao_real (some a) (some m) = some (min a m)) ∧
    area_max_ocupacao_real (area_max_ocupacao_to (some (1 / 2)) 300) (some 154) =
      some 150 ∧
    area_max_ocupacao_to (some (1 / 2)) 300 = some 150 ∧ (150 : ℚ) < 154 := by
  refine ⟨fun a m => rfl, ?_, ?_, by norm_num⟩
  · show area_max_ocupacao_real (some ((1 : ℚ) / 2 * 300)) (some 154) = some 150
    norm_num [area_max_ocupacao_real]
  · show some ((1 : ℚ) / 2 * 300) = some 150
    norm_num

/-- Claim C7 (amended): for a non-residential use under the usable-area
base metric, a lot on a local street with usable area strictly positive
and at most 100 m² owes zero stalls — the waiver fires before the rule
loop, whatever the rules are. -/
theorem calc_parking_v2_local_waiver (evalCond : String → Except Unit Bool)
    (rule_json : ParkRuleJson) (inputs : ParkInputs)
    (hvia : inputs.is_via_local = true)
    (hbase : rule_json.base_metric = some "area_util_m2")
    (hres : is_res_use rule_json.use_code = false)
    (hpos : 0 < (lookupNum inputs.numeric "area_util_m2").getD 0)
    (hle : (lookupNum inputs.numeric "area_util_m2").getD 0 ≤ 100) :
    calc_parking_v2 evalCond rule_json inputs =
      .ok { raw := some 0, required := some 0,
            applied_rule_text := some "Dispensa: não residencial ≤ 100m² em via local.",
            adjustments := [], notes := [] } := by
  simp [calc_parking_v2, hvia, hbase, hres, hpos, hle]

/-- Concrete waiver inputs: 80 m² of usable area on a local street. -/
def waiverInputs : ParkInputs :=
  { numeric := [("area_util_m2", 80)], is_via_local := true, near_vlt := false }

/-- Concrete non-residential rule record under the usable-area metric. -/
def waiverRuleJson : ParkRuleJson :=
  { use_code := some "COM_LOJA", base_metric := some "area_util_m2",
    rules := [{ type := some "fixed", value := some 5, text := some "5 vagas" }] }

/-- Witness for the amended C7 at the concrete 80 m² commercial lot. -/
theorem calc_parking_v2_local_waiver_witness :
    calc_parking_v2 (fun _ => .ok true) waiverRuleJson waiverInputs =
      .ok { raw := some 0, required := some 0,
            applied_rule_text := some "Dispensa: não residencial ≤ 100m² em via local.",
            adjustments := [], notes := [] } :=
  calc_parking_v2_local_waiver (fun _ => .ok true) waiverRuleJson waiverInputs
    rfl rfl (by decide) (by decide) (by decide)

/-- Concrete inputs identical to the waiver scenario except that the
usable area is 0 m² (still "at most 100 m²"). -/
def zeroAreaInputs : ParkInputs :=
  { numeric := [("area_util_m2", 0)], is_via_local := true, near_vlt := false }

unseal Rat.mul Rat.inv Rat.add Rat.sub in
/-- Claim C7 as stated is false: with usable area 0 m² (which is "at most
100 m²") on a local street, the waiver's `0 < area` guard fails, the
fixed rule fires, and 5 stalls are required instead of 0. -/
theorem calc_parking_v2_waiver_zero_area_counterexample :
    calc_parking_v2 (fun _ => .ok true) waiverRuleJson zeroAreaInputs =
      .ok { raw := some 5, required := some 5, applied_rule_text := some "5 vagas",
            adjustments := [], notes := [] } ∧
    ((lookupNum zeroAreaInputs.numeric "area_util_m2").getD 0 ≤ 100) ∧
    zeroAreaInputs.is_via_local = true ∧
    is_res_use waiverRuleJson.use_code = false := by
  refine ⟨rfl, by decide, rfl, by decide⟩

/-- A ratio rule record whose `per_m2` divisor is missing. -/
def ratioNoPerJson : ParkRuleJson :=
  { use_code := some "SERV_OFICINA", base_metric := some "area_util_m2",
    rules := [{ type := some "ratio", text := some "1 vaga / 50 m2" }] }

/-- Inputs with 50 m² of usable area, not on a local street. -/
def ratioInputs : ParkInputs := { numeric := [("area_util_m2", 50)] }

/-- Claim C9 is false as stated: on a ratio rule missing its `per_m2`
divisor (one of the claim's own examples), `calc_parking_v2` evaluates
`float(None)`, which raises TypeError to the caller instead of returning a
structured result with a reason note. -/
theorem calc_parking_v2_missing_per_m2_counterexample :
    calc_parking_v2 (fun _ => .ok true) ratioNoPerJson ratioInputs = .error () :=
  rfl

/-- Whether `safe_eval_condition` on a rule's condition cannot raise under
the condition-evaluation oracle. -/
def optCondOk (evalCond : String → Except Unit Bool) : Option String → Bool
  | none => true
  | some c =>
    if c = "" then true
    else
      match evalCond c with
      | .ok _ => true
      | .error _ => false

/-- A rule record is well formed (for a given base metric and usable area)
when every numeric parameter that the corresponding branch of
`calc_parking_v2` dereferences with `float(...)` is present, and any
truthy condition string evaluates without raising. -/
def ruleWF (evalCond : String → Except Unit Bool) (base_metric : Option String)
    (area : ℚ) (r : ParkRule) : Bool :=
  (if r.type == some "ratio" then
    (if base_metric == some "area_util_m2" then r.per_m2.isSome
     else r.per_units.isSome)
   else true) &&
  (if r.type == some "band_ratio" then
    (match r.bands.find? (bandMatches area) with
     | some b => b.per_m2.isSome
     | none => true)
   else true) &&
  (if r.type == some "ratio_above_threshold" then
    r.min_m2.isSome && r.per_m2.isSome
   else true) &&
  (if r.type == some "per_unit" || r.type == some "per_unit_with_condition" then
    optCondOk evalCond r.condition
   else true)

/-- On a list of well-formed rules the rule loop never raises. -/
theorem runRules_wf_ok (evalCond : String → Except Unit Bool)
    (base_metric : Option String) (inputs : ParkInputs) (area : ℚ) :
    ∀ (rules : List ParkRule) (notes : List String),
      rules.all (ruleWF evalCond base_metric area) = true →
      ∃ v, runRules evalCond base_metric inputs area rules notes = .ok v := by
  intro rules
  induction rules with
  | nil => intro notes _; exact ⟨_, rfl⟩
  | cons r rs ih =>
    intro notes hwf
    rw [List.all_cons, Bool.and_eq_true] at hwf
    obtain ⟨hr, hrs⟩ := hwf
    unfold runRules
    repeat' split
    all_goals
      first
        | exact ⟨_, rfl⟩
        | exact ih _ hrs
        | (simp_all [ruleWF, optCondOk]; done)

/-- Claim C9 (amended): for every rule record whose rules are well formed
(each numeric parameter read by its branch is present and conditions
evaluate without raising) and for every input, `calc_parking_v2` returns a
structured result without raising; when it cannot compute (no rule fired,
e.g. a banded rule with no matching band) the result carries
`required = none` plus the human-readable reason note, and when a rule
fired the required count is present. -/
theorem calc_parking_v2_structured_result (evalCond : String → Except Unit Bool)
    (rule_json : ParkRuleJson) (inputs : ParkInputs)
    (hwf : rule_json.rules.all
      (ruleWF evalCond rule_json.base_metric
        ((lookupNum inputs.numeric "area_util_m2").getD 0)) = true) :
    ∃ out, calc_parking_v2 evalCond rule_json inputs = .ok out ∧
      (out.raw = none → out.required = none ∧
        "Sem dados suficientes para calcular automaticamente." ∈ out.notes) ∧
      (∀ r, out.raw = some r → out.required.isSome = true) := by
  simp only [calc_parking_v2]
  obtain ⟨v, hv⟩ := runRules_wf_ok evalCond rule_json.base_metric inputs
    ((lookupNum inputs.numeric "area_util_m2").getD 0) rule_json.rules [] hwf
  by_cases hcond : (inputs.is_via_local &&
      (rule_json.base_metric == some "area_util_m2") &&
      decide (0 < (lookupNum inputs.numeric "area_util_m2").getD 0) &&
      decide ((lookupNum inputs.numeric "area_util_m2").getD 0 ≤ 100) &&
      !(is_res_use rule_json.use_code)) = true
  · rw [if_pos hcond]
    exact ⟨_, rfl, by simp, by simp⟩
  · rw [if_neg hcond, hv]
    obtain ⟨raw?, notes⟩ := v
    cases raw? with
    | none => exact ⟨_, rfl, by simp, by simp⟩
    | some rt =>
      obtain ⟨raw, text⟩ := rt
      by_cases hvlt :
          (inputs.near_vlt && decide (0 < round_rule_annex_iv raw)) = true
      · dsimp only
        rw [if_pos hvlt]
        exact ⟨_, rfl, by simp, by simp⟩
      · dsimp only
        rw [if_neg hvlt]
        exact ⟨_, rfl, by simp, by simp⟩

/-- A banded rule record whose single band (200 m² and up) cannot match a
small lot. -/
def noBandJson : ParkRuleJson :=
  { use_code := some "IND_GALPAO", base_metric := some "area_util_m2",
    rules := [{ type := some "band_ratio",
                bands := [{ min_m2 := some 200, per_m2 := some 50 }] }] }

/-- Witness for the amended C9: the 50 m² input matches no band, and the
result degrades to `required = none` with the reason note. -/
theorem calc_parking_v2_structured_result_witness :
    ∃ out, calc_parking_v2 (fun _ => .ok true) noBandJson ratioInputs = .ok out ∧
      (out.raw = none → out.required = none ∧
        "Sem dados suficientes para calcular automaticamente." ∈ out.notes) ∧
      (∀ r, out.raw = some r → out.required.isSome = true) :=
  calc_parking_v2_structured_result (fun _ => .ok true) noBandJson ratioInputs
    (by decide)
